import Mathlib

/-!
# nsauthpam: the PAM conversation responder and the `ns_authpam auth` command

A shallow embedding of `src/nsauthpam.c`.

* `pam_conv` is the conversation callback (lines 119-151).
* `AuthObjCmd` is the `auth` command (lines 169-256), run against an arbitrary
  PAM library given as a record of state-passing functions.

Conventions of the embedding.

* C strings are `String`; a `char *` that may be `NULL` is `Option String`.
* `int` statuses are `Int`.
* The constants of `<security/pam_appl.h>` are not part of the repository; they
  are the fields of `PamHeader`.
* `malloc` and `strdup` are assumed to succeed; the message count `msgs` is the
  length of the message list.
* `AuthObjCmd` itself keeps no log. What the library is asked is observed by
  running the command against `recorder L`, a library that stores every call it
  receives in its own state.
-/

namespace NsAuthPam

/-! ## The PAM header -/

/-- The constants of `<security/pam_appl.h>` that `nsauthpam.c` uses. The header
is not part of the repository, so the values are parameters. The four message
styles are `case` labels of one `switch` (line 127), hence pairwise distinct in
any header the file compiles against; the three item types name different
items. -/
structure PamHeader where
  PAM_SUCCESS : Int
  PAM_CONV_ERR : Int
  PAM_PROMPT_ECHO_OFF : Int
  PAM_PROMPT_ECHO_ON : Int
  PAM_ERROR_MSG : Int
  PAM_TEXT_INFO : Int
  PAM_TTY : Int
  PAM_RHOST : Int
  PAM_AUTHTOK : Int
  styles_distinct :
    [PAM_PROMPT_ECHO_ON, PAM_PROMPT_ECHO_OFF, PAM_TEXT_INFO, PAM_ERROR_MSG].Nodup
  items_distinct : [PAM_RHOST, PAM_AUTHTOK, PAM_TTY].Nodup

/-- The values of Linux-PAM (`security/_pam_types.h`), used for concrete runs. -/
def linuxPam : PamHeader where
  PAM_SUCCESS := 0
  PAM_CONV_ERR := 19
  PAM_PROMPT_ECHO_OFF := 1
  PAM_PROMPT_ECHO_ON := 2
  PAM_ERROR_MSG := 3
  PAM_TEXT_INFO := 4
  PAM_TTY := 3
  PAM_RHOST := 4
  PAM_AUTHTOK := 6
  styles_distinct := by decide
  items_distinct := by decide

/-! ## Data -/

/-- `struct pam_message` of the PAM header: a style and a prompt text. -/
structure pam_message where
  msg_style : Int
  msg : String
deriving DecidableEq, Repr

/-- `struct pam_response` of the PAM header; `resp = none` is `NULL`. -/
structure pam_response where
  resp : Option String
  resp_retcode : Int
deriving DecidableEq, Repr

/-- `struct pam_cred` (lines 31-34). -/
structure pam_cred where
  username : String
  password : String
deriving DecidableEq, Repr

/-! ## pam_conv -/

/-- The `for` loop of `pam_conv` (lines 126-148) from index `reply.length` on:
`msg` holds the messages not yet visited, `reply` the entries of the reply
vector written so far. `none` is the `default:` exit, where the vector is freed
and the function returns `PAM_CONV_ERR`. -/
def pam_conv_loop (H : PamHeader) (cred : pam_cred) :
    List pam_message → List pam_response → Option (List pam_response)
  | [], reply => some reply
  | m :: rest, reply =>
    if m.msg_style = H.PAM_PROMPT_ECHO_ON then
      pam_conv_loop H cred rest (reply ++ [⟨some cred.username, H.PAM_SUCCESS⟩])
    else if m.msg_style = H.PAM_PROMPT_ECHO_OFF then
      pam_conv_loop H cred rest (reply ++ [⟨some cred.password, H.PAM_SUCCESS⟩])
    else if m.msg_style = H.PAM_TEXT_INFO ∨ m.msg_style = H.PAM_ERROR_MSG then
      pam_conv_loop H cred rest (reply ++ [⟨none, H.PAM_SUCCESS⟩])
    else
      none

/-- The function `pam_conv` (lines 119-151). `resp` is the content of the
caller's `*resp` before the call; the result is the returned status and the
content of `*resp` after the call. -/
def pam_conv (H : PamHeader) (msg : List pam_message)
    (resp : Option (List pam_response)) (appdata : pam_cred) :
    Int × Option (List pam_response) :=
  match pam_conv_loop H appdata msg [] with
  | some reply => (H.PAM_SUCCESS, some reply)
  | none => (H.PAM_CONV_ERR, resp)

/-- The answer `pam_conv` writes for one message of a recognised style. -/
def answerFor (H : PamHeader) (cred : pam_cred) (m : pam_message) : pam_response :=
  if m.msg_style = H.PAM_PROMPT_ECHO_ON then ⟨some cred.username, H.PAM_SUCCESS⟩
  else if m.msg_style = H.PAM_PROMPT_ECHO_OFF then ⟨some cred.password, H.PAM_SUCCESS⟩
  else ⟨none, H.PAM_SUCCESS⟩

/-- A message style that the `switch` of `pam_conv` has a `case` for. -/
def recognized (H : PamHeader) (m : pam_message) : Prop :=
  m.msg_style = H.PAM_PROMPT_ECHO_ON ∨ m.msg_style = H.PAM_PROMPT_ECHO_OFF ∨
    m.msg_style = H.PAM_TEXT_INFO ∨ m.msg_style = H.PAM_ERROR_MSG

instance (H : PamHeader) (m : pam_message) : Decidable (recognized H m) := by
  unfold recognized; infer_instance

/-! ## The PAM library as seen by the command -/

/-- `struct pam_conv` of the PAM header: the callback and its application
data (filled in at lines 219-222). -/
structure pam_conv_t where
  conv : List pam_message → Option (List pam_response) → pam_cred →
    Int × Option (List pam_response)
  appdata_ptr : pam_cred

/-- The six entry points of the PAM library that `AuthObjCmd` calls, as
state-passing functions over the library's state `σ` (which includes the
session handle `hdl`). Each returns its status and the next state. The library
is external to the repository, so it is a parameter. -/
structure PamLibrary (σ : Type) where
  pam_start : σ → String → String → pam_conv_t → Int × σ
  pam_fail_delay : σ → Int → Int × σ
  pam_set_item : σ → Int → String → Int × σ
  pam_authenticate : σ → Int → Int × σ
  pam_acct_mgmt : σ → Int → Int × σ
  pam_end : σ → Int → Int × σ

/-- The variables `Ns_ParseObjv` fills in for `auth` (lines 196-213): three
required strings, three optional strings that stay `NULL` when the option is
not given, and `delay`, which stays `0`. -/
structure AuthArgs where
  service : String
  user : String
  password : String
  tty : Option String
  rhost : Option String
  authtok : Option String
  delay : Int
deriving DecidableEq, Repr

/-- The Tcl return codes of the command. -/
inductive TclCode where
  | TCL_OK
  | TCL_ERROR
deriving DecidableEq, Repr

/-- What one run of the command leaves behind: the Tcl return code, the
integer stored as interpreter result by `Tcl_SetObjResult` (if any) and the
final library state. -/
structure CmdOutcome (σ : Type) where
  code : TclCode
  result : Option Int
  st : σ

/-- The statement `if (item != NULL) { pam_set_item(hdl, item_type, item); }`
(lines 235-243); the returned status is dropped. -/
def setItemIfPresent {σ : Type} (L : PamLibrary σ) (item_type : Int)
    (item : Option String) (s : σ) : σ :=
  match item with
  | none => s
  | some v => (L.pam_set_item s item_type v).2

/-- The command `AuthObjCmd` (lines 169-256). The three usage checks
(`objc < 3`, `Tcl_GetIndexFromObj`, `Ns_ParseObjv`) are host functions outside
the repository: `parsed` is their joint outcome, `none` when one of them fails
and the command returns `TCL_ERROR`. `apple` says whether `__APPLE__` is
defined (line 226). -/
def AuthObjCmd {σ : Type} (H : PamHeader) (apple : Bool) (L : PamLibrary σ)
    (parsed : Option AuthArgs) (s0 : σ) : CmdOutcome σ :=
  match parsed with
  | none => ⟨TclCode.TCL_ERROR, none, s0⟩
  | some a =>
    let cred : pam_cred := ⟨a.user, a.password⟩
    let conv : pam_conv_t := ⟨pam_conv H, cred⟩
    -- rc = pam_start(service, user, &conv, &hdl);
    let r0 := L.pam_start s0 a.service a.user conv
    let rc := r0.1
    -- #if !defined(__APPLE__)  if (delay > 0) pam_fail_delay(hdl, delay);
    let s1 : σ :=
      if apple = false ∧ a.delay > 0 then (L.pam_fail_delay r0.2 a.delay).2 else r0.2
    -- if (rc == PAM_SUCCESS) { set items; rc = pam_authenticate(hdl, 0); }
    let y : Int × σ :=
      if rc = H.PAM_SUCCESS then
        let s2 := setItemIfPresent L H.PAM_RHOST a.rhost s1
        let s3 := setItemIfPresent L H.PAM_AUTHTOK a.authtok s2
        let s4 := setItemIfPresent L H.PAM_TTY a.tty s3
        L.pam_authenticate s4 0
      else (rc, s1)
    let rc := y.1
    -- if (rc == PAM_SUCCESS) pam_acct_mgmt(hdl, 0);
    let s5 : σ := if rc = H.PAM_SUCCESS then (L.pam_acct_mgmt y.2 0).2 else y.2
    -- pam_end(hdl, rc);
    let r6 := L.pam_end s5 rc
    ⟨TclCode.TCL_OK, some (if rc = H.PAM_SUCCESS then 1 else 0), r6.2⟩

/-! ## Observing the calls a library receives -/

/-- One call received by the PAM library, with the arguments it was handed
(the handle apart) and the status it returned. -/
inductive PamCall where
  | pam_start (service user : String) (ret : Int)
  | pam_fail_delay (usec : Int) (ret : Int)
  | pam_set_item (item_type : Int) (item : String) (ret : Int)
  | pam_authenticate (flags : Int) (ret : Int)
  | pam_acct_mgmt (flags : Int) (ret : Int)
  | pam_end (pam_status : Int) (ret : Int)
deriving DecidableEq, Repr

/-- The library `L` wrapped in a recorder. The state is that of `L` paired with
the list of calls received so far, oldest first. Every entry point passes its
arguments on to `L`, returns what `L` returns, and appends the call, with the
arguments it was handed and the status `L` returned, to the list. The list is
part of the library state, so a call the command does not make, or whose
resulting state it does not carry on, is not in it. -/
def recorder {σ : Type} (L : PamLibrary σ) : PamLibrary (σ × List PamCall) where
  pam_start := fun s service user conv =>
    let r := L.pam_start s.1 service user conv
    (r.1, (r.2, s.2 ++ [PamCall.pam_start service user r.1]))
  pam_fail_delay := fun s usec =>
    let r := L.pam_fail_delay s.1 usec
    (r.1, (r.2, s.2 ++ [PamCall.pam_fail_delay usec r.1]))
  pam_set_item := fun s item_type item =>
    let r := L.pam_set_item s.1 item_type item
    (r.1, (r.2, s.2 ++ [PamCall.pam_set_item item_type item r.1]))
  pam_authenticate := fun s flags =>
    let r := L.pam_authenticate s.1 flags
    (r.1, (r.2, s.2 ++ [PamCall.pam_authenticate flags r.1]))
  pam_acct_mgmt := fun s flags =>
    let r := L.pam_acct_mgmt s.1 flags
    (r.1, (r.2, s.2 ++ [PamCall.pam_acct_mgmt flags r.1]))
  pam_end := fun s pam_status =>
    let r := L.pam_end s.1 pam_status
    (r.1, (r.2, s.2 ++ [PamCall.pam_end pam_status r.1]))

/-! ## Reading a list of calls -/

/-- The call is a `pam_start`. -/
def PamCall.isStart : PamCall → Bool
  | .pam_start _ _ _ => true
  | _ => false

/-- The call is a `pam_fail_delay`. -/
def PamCall.isFailDelay : PamCall → Bool
  | .pam_fail_delay _ _ => true
  | _ => false

/-- The call is a `pam_set_item`. -/
def PamCall.isSetItem : PamCall → Bool
  | .pam_set_item _ _ _ => true
  | _ => false

/-- The call is a `pam_set_item` for the item type `k`. -/
def PamCall.isSetItemOf (k : Int) : PamCall → Bool
  | .pam_set_item t _ _ => decide (t = k)
  | _ => false

/-- The call is a `pam_authenticate`. -/
def PamCall.isAuthenticate : PamCall → Bool
  | .pam_authenticate _ _ => true
  | _ => false

/-- The call is a `pam_acct_mgmt`. -/
def PamCall.isAcctMgmt : PamCall → Bool
  | .pam_acct_mgmt _ _ => true
  | _ => false

/-- The call is a `pam_end`. -/
def PamCall.isEnd : PamCall → Bool
  | .pam_end _ _ => true
  | _ => false

/-- The status the library returned for a call. -/
def PamCall.ret : PamCall → Int
  | .pam_start _ _ r => r
  | .pam_fail_delay _ r => r
  | .pam_set_item _ _ r => r
  | .pam_authenticate _ r => r
  | .pam_acct_mgmt _ r => r
  | .pam_end _ r => r

/-! ## A scripted library for concrete runs -/

/-- The script of a test library: the status of each entry point, the batches
of prompts `pam_authenticate` sends to the conversation callback, and the
status it returns when every batch was answered. -/
structure FakeScript where
  start : Int
  fail_delay : Int
  set_item : Int → Int
  batches : List (List pam_message)
  verdict : Int
  acct : Int
  finish : Int

/-- A test library. Its state is the conversation registered by a successful
`pam_start`. `pam_authenticate` sends every batch of the script to the
callback and returns `PAM_CONV_ERR` as soon as one is not answered with
`PAM_SUCCESS`, else the scripted verdict. -/
def fakePam (H : PamHeader) (sc : FakeScript) : PamLibrary (Option pam_conv_t) where
  pam_start := fun s _ _ conv =>
    (sc.start, if sc.start = H.PAM_SUCCESS then some conv else s)
  pam_fail_delay := fun s _ => (sc.fail_delay, s)
  pam_set_item := fun s k _ => (sc.set_item k, s)
  pam_authenticate := fun s _ =>
    match s with
    | none => (H.PAM_CONV_ERR, s)
    | some c =>
      if sc.batches.all (fun b => decide ((c.conv b none c.appdata_ptr).1 = H.PAM_SUCCESS))
      then (sc.verdict, s) else (H.PAM_CONV_ERR, s)
  pam_acct_mgmt := fun s _ => (sc.acct, s)
  pam_end := fun _ _ => (sc.finish, none)

/-- A script in which every entry point succeeds and no prompt is sent. -/
def okScript : FakeScript :=
  ⟨0, 0, fun _ => 0, [], 0, 0, 0⟩

/-- The arguments of `ns_authpam auth login alice secret`. -/
def aliceArgs : AuthArgs :=
  ⟨"login", "alice", "secret", none, none, none, 0⟩

/-- The arguments of `ns_authpam auth -rhost 10.0.0.5 login alice secret`. -/
def rhostArgs : AuthArgs :=
  ⟨"login", "alice", "secret", none, some "10.0.0.5", none, 0⟩

/-- The arguments of
`ns_authpam auth -tty pts/3 -rhost 10.0.0.5 -authtok tok -delay 5 login alice secret`. -/
def fullArgs : AuthArgs :=
  ⟨"login", "alice", "secret", some "pts/3", some "10.0.0.5", some "tok", 5⟩

/-- The library `L` with the status returned by `pam_set_item` replaced by
`f`; the effect of the call on the library state is kept. -/
def withSetItemStatus {σ : Type} (L : PamLibrary σ) (f : σ → Int → String → Int) :
    PamLibrary σ :=
  { L with pam_set_item := fun s k v => (f s k v, (L.pam_set_item s k v).2) }

/-- The status returned by the first call of the list that satisfies `p`. -/
def statusOf (p : PamCall → Bool) (t : List PamCall) : Option Int :=
  (t.find? p).map PamCall.ret

/-- The `pam_status` argument the first `pam_end` call of the list was handed. -/
def endStatus : List PamCall → Option Int
  | [] => none
  | PamCall.pam_end st _ :: _ => some st
  | _ :: rest => endStatus rest

/-- The statuses the library returned during one run, one per call site of
`AuthObjCmd`; a field is irrelevant when its call is not made. -/
structure Rets where
  start : Int
  fail_delay : Int
  rhost : Int
  authtok : Int
  tty : Int
  authenticate : Int
  acct_mgmt : Int
  finish : Int

/-- The `pam_set_item` call made for an optional item: none for `NULL`. -/
def itemCall (k : Int) (v : Option String) (r : Int) : List PamCall :=
  match v with
  | none => []
  | some w => [PamCall.pam_set_item k w r]

/-- The calls of lines 224-249, in order, when the library returns the
statuses `ρ`: what `AuthObjCmd_cases` below proves a recorder receives. -/
def callsOf (H : PamHeader) (apple : Bool) (a : AuthArgs) (ρ : Rets) : List PamCall :=
  PamCall.pam_start a.service a.user ρ.start ::
    ((if apple = false ∧ a.delay > 0 then [PamCall.pam_fail_delay a.delay ρ.fail_delay]
      else []) ++
     (if ρ.start = H.PAM_SUCCESS then
        itemCall H.PAM_RHOST a.rhost ρ.rhost ++
          (itemCall H.PAM_AUTHTOK a.authtok ρ.authtok ++
            (itemCall H.PAM_TTY a.tty ρ.tty ++
              PamCall.pam_authenticate 0 ρ.authenticate ::
                ((if ρ.authenticate = H.PAM_SUCCESS then [PamCall.pam_acct_mgmt 0 ρ.acct_mgmt]
                  else []) ++
                 [PamCall.pam_end ρ.authenticate ρ.finish])))
      else [PamCall.pam_end ρ.start ρ.finish]))

/-! ## pam_conv: lemmas -/

theorem pam_conv_loop_all_recognized (H : PamHeader) (cred : pam_cred)
    (msg : List pam_message) (reply : List pam_response)
    (h : ∀ m ∈ msg, recognized H m) :
    pam_conv_loop H cred msg reply = some (reply ++ msg.map (answerFor H cred)) := by
  induction msg generalizing reply with
  | nil => simp [pam_conv_loop]
  | cons m rest ih =>
    have hm : recognized H m := h m (List.mem_cons_self _ _)
    have hrest : ∀ x ∈ rest, recognized H x := fun x hx => h x (List.mem_cons_of_mem _ hx)
    unfold pam_conv_loop
    by_cases h1 : m.msg_style = H.PAM_PROMPT_ECHO_ON
    · simp only [if_pos h1, ih _ hrest, answerFor, List.map_cons, List.append_assoc,
        List.singleton_append]
    · by_cases h2 : m.msg_style = H.PAM_PROMPT_ECHO_OFF
      · simp only [if_neg h1, if_pos h2, ih _ hrest, answerFor, List.map_cons,
          List.append_assoc, List.singleton_append]
      · have h3 : m.msg_style = H.PAM_TEXT_INFO ∨ m.msg_style = H.PAM_ERROR_MSG := by
          rcases hm with h | h | h
          · exact absurd h h1
          · exact absurd h h2
          · exact h
        simp only [if_neg h1, if_neg h2, if_pos h3, ih _ hrest, answerFor, List.map_cons,
          List.append_assoc, List.singleton_append]

theorem pam_conv_loop_unrecognized (H : PamHeader) (cred : pam_cred)
    (msg : List pam_message) (reply : List pam_response)
    (h : ∃ m ∈ msg, ¬ recognized H m) :
    pam_conv_loop H cred msg reply = none := by
  induction msg generalizing reply with
  | nil => simp at h
  | cons m rest ih =>
    unfold pam_conv_loop
    by_cases hm : recognized H m
    · have hrest : ∃ x ∈ rest, ¬ recognized H x := by
        obtain ⟨x, hx, hnx⟩ := h
        rcases List.mem_cons.mp hx with rfl | hx
        · exact absurd hm hnx
        · exact ⟨x, hx, hnx⟩
      simp only [ih _ hrest, ite_self]
    · simp only [recognized, not_or] at hm
      simp [hm.1, hm.2.1, hm.2.2.1, hm.2.2.2]

theorem answerFor_echo_on (H : PamHeader) (cred : pam_cred) (m : pam_message)
    (h : m.msg_style = H.PAM_PROMPT_ECHO_ON) :
    answerFor H cred m = ⟨some cred.username, H.PAM_SUCCESS⟩ := by
  simp [answerFor, h]

theorem answerFor_echo_off (H : PamHeader) (cred : pam_cred) (m : pam_message)
    (h : m.msg_style = H.PAM_PROMPT_ECHO_OFF) :
    answerFor H cred m = ⟨some cred.password, H.PAM_SUCCESS⟩ := by
  have hd := H.styles_distinct
  simp only [List.nodup_cons, List.mem_cons, List.mem_singleton, not_or, List.not_mem_nil,
    not_false_eq_true, and_true, or_false, List.nodup_nil] at hd
  have hne : ¬ H.PAM_PROMPT_ECHO_OFF = H.PAM_PROMPT_ECHO_ON := fun e => hd.1.1 e.symm
  simp [answerFor, h, hne]

theorem answerFor_info_error (H : PamHeader) (cred : pam_cred) (m : pam_message)
    (h : m.msg_style = H.PAM_TEXT_INFO ∨ m.msg_style = H.PAM_ERROR_MSG) :
    answerFor H cred m = ⟨none, H.PAM_SUCCESS⟩ := by
  have hd := H.styles_distinct
  simp only [List.nodup_cons, List.mem_cons, List.mem_singleton, not_or, List.not_mem_nil,
    not_false_eq_true, and_true, or_false, List.nodup_nil] at hd
  rcases h with h | h
  · have h1 : ¬ H.PAM_TEXT_INFO = H.PAM_PROMPT_ECHO_ON := fun e => hd.1.2.1 e.symm
    have h2 : ¬ H.PAM_TEXT_INFO = H.PAM_PROMPT_ECHO_OFF := fun e => hd.2.1.1 e.symm
    simp [answerFor, h, h1, h2]
  · have h1 : ¬ H.PAM_ERROR_MSG = H.PAM_PROMPT_ECHO_ON := fun e => hd.1.2.2 e.symm
    have h2 : ¬ H.PAM_ERROR_MSG = H.PAM_PROMPT_ECHO_OFF := fun e => hd.2.1.2 e.symm
    simp [answerFor, h, h1, h2]

/-! ## pam_conv: the claims -/

/-- C1. For every header, credential pair and batch (of any length) whose
messages all have a recognised style, `pam_conv` returns `PAM_SUCCESS` and
stores a reply vector of the length of the batch in which entry `i` carries
`PAM_SUCCESS` and the user name for `PAM_PROMPT_ECHO_ON`, the password for
`PAM_PROMPT_ECHO_OFF`, and no text for `PAM_TEXT_INFO` and `PAM_ERROR_MSG`. -/
theorem pam_conv_answers_recognized (H : PamHeader) (cred : pam_cred)
    (msg : List pam_message) (resp : Option (List pam_response))
    (hrec : ∀ m ∈ msg, recognized H m) :
    ∃ reply : List pam_response,
      pam_conv H msg resp cred = (H.PAM_SUCCESS, some reply) ∧
      reply.length = msg.length ∧
      ∀ (i : Nat) (m : pam_message), msg[i]? = some m →
        (m.msg_style = H.PAM_PROMPT_ECHO_ON →
          reply[i]? = some ⟨some cred.username, H.PAM_SUCCESS⟩) ∧
        (m.msg_style = H.PAM_PROMPT_ECHO_OFF →
          reply[i]? = some ⟨some cred.password, H.PAM_SUCCESS⟩) ∧
        (m.msg_style = H.PAM_TEXT_INFO ∨ m.msg_style = H.PAM_ERROR_MSG →
          reply[i]? = some ⟨none, H.PAM_SUCCESS⟩) := by
  refine ⟨msg.map (answerFor H cred), ?_, by simp, ?_⟩
  · simp [pam_conv, pam_conv_loop_all_recognized H cred msg [] hrec]
  · intro i m hi
    have hget : (msg.map (answerFor H cred))[i]? = some (answerFor H cred m) := by
      simp [List.getElem?_map, hi]
    refine ⟨fun h => ?_, fun h => ?_, fun h => ?_⟩
    · rw [hget, answerFor_echo_on H cred m h]
    · rw [hget, answerFor_echo_off H cred m h]
    · rw [hget, answerFor_info_error H cred m h]

/-- Witness for C1: a batch with one message of each recognised style. -/
theorem pam_conv_answers_recognized_witness :
    (∀ m ∈ ([⟨2, "login:"⟩, ⟨1, "Password:"⟩, ⟨4, "welcome"⟩, ⟨3, "oops"⟩] : List pam_message),
      recognized linuxPam m) ∧
    ∃ reply : List pam_response,
      pam_conv linuxPam [⟨2, "login:"⟩, ⟨1, "Password:"⟩, ⟨4, "welcome"⟩, ⟨3, "oops"⟩] none
          ⟨"alice", "secret"⟩ = (0, some reply) ∧
      reply.length = 4 ∧
      reply[0]? = some ⟨some "alice", 0⟩ ∧ reply[1]? = some ⟨some "secret", 0⟩ ∧
      reply[2]? = some ⟨none, 0⟩ ∧ reply[3]? = some ⟨none, 0⟩ := by
  obtain ⟨reply, h1, h2, h3⟩ :=
    pam_conv_answers_recognized linuxPam ⟨"alice", "secret"⟩
      [⟨2, "login:"⟩, ⟨1, "Password:"⟩, ⟨4, "welcome"⟩, ⟨3, "oops"⟩] none (by decide)
  exact ⟨by decide, reply, h1, h2, (h3 0 _ rfl).1 rfl, (h3 1 _ rfl).2.1 rfl,
    (h3 2 _ rfl).2.2 (Or.inl rfl), (h3 3 _ rfl).2.2 (Or.inr rfl)⟩

/-- C2. For every header, credential pair and batch that holds a message of an
unrecognised style at any position, `pam_conv` returns `PAM_CONV_ERR` and leaves
the caller's `*resp` as it was: no reply vector is handed over. -/
theorem pam_conv_rejects_unrecognized (H : PamHeader) (cred : pam_cred)
    (msg : List pam_message) (resp : Option (List pam_response))
    (hbad : ∃ m ∈ msg, ¬ recognized H m) :
    pam_conv H msg resp cred = (H.PAM_CONV_ERR, resp) := by
  simp [pam_conv, pam_conv_loop_unrecognized H cred msg [] hbad]

/-- Witness for C2: two recognised prompts followed by one of style 9. -/
theorem pam_conv_rejects_unrecognized_witness :
    (∃ m ∈ ([⟨2, "login:"⟩, ⟨1, "Password:"⟩, ⟨9, "?"⟩] : List pam_message),
        ¬ recognized linuxPam m) ∧
    pam_conv linuxPam [⟨2, "login:"⟩, ⟨1, "Password:"⟩, ⟨9, "?"⟩] none ⟨"alice", "secret"⟩ =
      (19, none) :=
  ⟨by decide,
   pam_conv_rejects_unrecognized linuxPam ⟨"alice", "secret"⟩
     [⟨2, "login:"⟩, ⟨1, "Password:"⟩, ⟨9, "?"⟩] none (by decide)⟩

/-! ## AuthObjCmd: the calls a recorder receives -/

theorem setItemIfPresent_recorder {σ : Type} (L : PamLibrary σ) (k : Int)
    (v : Option String) (x : σ × List PamCall) :
    ∃ r, (setItemIfPresent (recorder L) k v x).2 = x.2 ++ itemCall k v r ∧
      ∀ w, v = some w → r = (L.pam_set_item x.1 k w).1 := by
  cases v with
  | none => exact ⟨0, by simp [setItemIfPresent, itemCall], by simp⟩
  | some w =>
    refine ⟨(L.pam_set_item x.1 k w).1, rfl, ?_⟩
    intro w2 hw
    cases hw
    rfl

theorem recorder_pam_start {σ : Type} (L : PamLibrary σ) (s : σ × List PamCall)
    (service user : String) (conv : pam_conv_t) :
    (recorder L).pam_start s service user conv
      = ((L.pam_start s.1 service user conv).1, ((L.pam_start s.1 service user conv).2,
          s.2 ++ [PamCall.pam_start service user (L.pam_start s.1 service user conv).1])) :=
  rfl

theorem recorder_pam_fail_delay {σ : Type} (L : PamLibrary σ) (s : σ × List PamCall)
    (usec : Int) :
    (recorder L).pam_fail_delay s usec
      = ((L.pam_fail_delay s.1 usec).1, ((L.pam_fail_delay s.1 usec).2,
          s.2 ++ [PamCall.pam_fail_delay usec (L.pam_fail_delay s.1 usec).1])) :=
  rfl

theorem recorder_pam_set_item {σ : Type} (L : PamLibrary σ) (s : σ × List PamCall)
    (item_type : Int) (item : String) :
    (recorder L).pam_set_item s item_type item
      = ((L.pam_set_item s.1 item_type item).1, ((L.pam_set_item s.1 item_type item).2,
          s.2 ++ [PamCall.pam_set_item item_type item (L.pam_set_item s.1 item_type item).1])) :=
  rfl

theorem recorder_pam_authenticate {σ : Type} (L : PamLibrary σ) (s : σ × List PamCall)
    (flags : Int) :
    (recorder L).pam_authenticate s flags
      = ((L.pam_authenticate s.1 flags).1, ((L.pam_authenticate s.1 flags).2,
          s.2 ++ [PamCall.pam_authenticate flags (L.pam_authenticate s.1 flags).1])) :=
  rfl

theorem recorder_pam_acct_mgmt {σ : Type} (L : PamLibrary σ) (s : σ × List PamCall)
    (flags : Int) :
    (recorder L).pam_acct_mgmt s flags
      = ((L.pam_acct_mgmt s.1 flags).1, ((L.pam_acct_mgmt s.1 flags).2,
          s.2 ++ [PamCall.pam_acct_mgmt flags (L.pam_acct_mgmt s.1 flags).1])) :=
  rfl

theorem recorder_pam_end {σ : Type} (L : PamLibrary σ) (s : σ × List PamCall)
    (pam_status : Int) :
    (recorder L).pam_end s pam_status
      = ((L.pam_end s.1 pam_status).1, ((L.pam_end s.1 pam_status).2,
          s.2 ++ [PamCall.pam_end pam_status (L.pam_end s.1 pam_status).1])) :=
  rfl

theorem AuthObjCmd_cases_from {σ : Type} (H : PamHeader) (apple : Bool) (L : PamLibrary σ)
    (a : AuthArgs) (s0 : σ) (log : List PamCall) :
    ∃ ρ : Rets,
      (AuthObjCmd H apple (recorder L) (some a) (s0, log)).st.2 = log ++ callsOf H apple a ρ ∧
      (AuthObjCmd H apple (recorder L) (some a) (s0, log)).result
        = some (if ρ.start = H.PAM_SUCCESS ∧ ρ.authenticate = H.PAM_SUCCESS then 1 else 0) ∧
      (ρ.start = H.PAM_SUCCESS →
        (∀ w, a.rhost = some w → ∃ s, ρ.rhost = (L.pam_set_item s H.PAM_RHOST w).1) ∧
        (∀ w, a.authtok = some w → ∃ s, ρ.authtok = (L.pam_set_item s H.PAM_AUTHTOK w).1) ∧
        (∀ w, a.tty = some w → ∃ s, ρ.tty = (L.pam_set_item s H.PAM_TTY w).1)) := by
  simp only [AuthObjCmd, recorder_pam_start, recorder_pam_fail_delay, recorder_pam_authenticate,
    recorder_pam_acct_mgmt, recorder_pam_end]
  generalize L.pam_start s0 a.service a.user _ = r0
  obtain ⟨rs, s1⟩ := r0
  simp only
  generalize hx1 : (ite (apple = false ∧ a.delay > 0) _ _ : σ × List PamCall) = x1
  have h1 : ∃ rd, x1.2 = log ++ PamCall.pam_start a.service a.user rs ::
      (if apple = false ∧ a.delay > 0 then [PamCall.pam_fail_delay a.delay rd] else []) := by
    by_cases hd : apple = false ∧ a.delay > 0
    · rw [if_pos hd] at hx1
      exact ⟨(L.pam_fail_delay s1 a.delay).1, by rw [← hx1, if_pos hd]; simp⟩
    · rw [if_neg hd] at hx1
      exact ⟨0, by rw [← hx1, if_neg hd]⟩
  obtain ⟨rd, h1⟩ := h1
  obtain ⟨r1, h2, p1⟩ := setItemIfPresent_recorder L H.PAM_RHOST a.rhost x1
  generalize setItemIfPresent (recorder L) H.PAM_RHOST a.rhost x1 = x2 at h2 ⊢
  obtain ⟨r2, h3, p2⟩ := setItemIfPresent_recorder L H.PAM_AUTHTOK a.authtok x2
  generalize setItemIfPresent (recorder L) H.PAM_AUTHTOK a.authtok x2 = x3 at h3 ⊢
  obtain ⟨r3, h4, p3⟩ := setItemIfPresent_recorder L H.PAM_TTY a.tty x3
  generalize setItemIfPresent (recorder L) H.PAM_TTY a.tty x3 = x4 at h4 ⊢
  generalize L.pam_authenticate x4.1 0 = r5
  obtain ⟨ra, s5⟩ := r5
  have hp : (∀ w, a.rhost = some w → ∃ s, r1 = (L.pam_set_item s H.PAM_RHOST w).1) ∧
      (∀ w, a.authtok = some w → ∃ s, r2 = (L.pam_set_item s H.PAM_AUTHTOK w).1) ∧
      (∀ w, a.tty = some w → ∃ s, r3 = (L.pam_set_item s H.PAM_TTY w).1) :=
    ⟨fun w hw => ⟨x1.1, p1 w hw⟩, fun w hw => ⟨x2.1, p2 w hw⟩, fun w hw => ⟨x3.1, p3 w hw⟩⟩
  by_cases hrs : rs = H.PAM_SUCCESS
  · by_cases hra : ra = H.PAM_SUCCESS
    · refine ⟨⟨rs, rd, r1, r2, r3, ra, (L.pam_acct_mgmt s5 0).1,
        (L.pam_end (L.pam_acct_mgmt s5 0).2 ra).1⟩, ?_, ?_, fun _ => hp⟩
      · simp [callsOf, hrs, hra, h1, h2, h3, h4]
      · simp [hrs, hra]
    · refine ⟨⟨rs, rd, r1, r2, r3, ra, 0, (L.pam_end s5 ra).1⟩, ?_, ?_, fun _ => hp⟩
      · simp [callsOf, hrs, hra, h1, h2, h3, h4]
      · simp [hrs, hra]
  · refine ⟨⟨rs, rd, 0, 0, 0, 0, 0, (L.pam_end x1.1 rs).1⟩, ?_, ?_, fun h => absurd h hrs⟩
    · simp [callsOf, hrs, h1]
    · simp [hrs]

theorem AuthObjCmd_cases {σ : Type} (H : PamHeader) (apple : Bool) (L : PamLibrary σ)
    (a : AuthArgs) (s0 : σ) :
    ∃ ρ : Rets,
      (AuthObjCmd H apple (recorder L) (some a) (s0, [])).st.2 = callsOf H apple a ρ ∧
      (AuthObjCmd H apple (recorder L) (some a) (s0, [])).result
        = some (if ρ.start = H.PAM_SUCCESS ∧ ρ.authenticate = H.PAM_SUCCESS then 1 else 0) ∧
      (ρ.start = H.PAM_SUCCESS →
        (∀ w, a.rhost = some w → ∃ s, ρ.rhost = (L.pam_set_item s H.PAM_RHOST w).1) ∧
        (∀ w, a.authtok = some w → ∃ s, ρ.authtok = (L.pam_set_item s H.PAM_AUTHTOK w).1) ∧
        (∀ w, a.tty = some w → ∃ s, ρ.tty = (L.pam_set_item s H.PAM_TTY w).1)) := by
  obtain ⟨ρ, h1, h2, h3⟩ := AuthObjCmd_cases_from H apple L a s0 []
  exact ⟨ρ, by rw [h1, List.nil_append], h2, h3⟩

theorem statusOf_isStart_callsOf (H : PamHeader) (apple : Bool) (a : AuthArgs) (ρ : Rets) :
    statusOf PamCall.isStart (callsOf H apple a ρ) = some ρ.start := by
  simp [statusOf, callsOf, PamCall.isStart, PamCall.ret]

theorem recorder_transparent {σ : Type} (H : PamHeader) (apple : Bool) (L : PamLibrary σ)
    (a : AuthArgs) (s0 : σ) (log : List PamCall) :
    (AuthObjCmd H apple (recorder L) (some a) (s0, log)).result
      = (AuthObjCmd H apple L (some a) s0).result ∧
    (AuthObjCmd H apple (recorder L) (some a) (s0, log)).st.1
      = (AuthObjCmd H apple L (some a) s0).st := by
  rcases a with ⟨service, user, password, tty, rhost, authtok, delay⟩
  simp only [AuthObjCmd, recorder_pam_start, recorder_pam_fail_delay, recorder_pam_authenticate,
    recorder_pam_acct_mgmt, recorder_pam_end, recorder_pam_set_item, setItemIfPresent]
  generalize L.pam_start s0 service user _ = r0
  obtain ⟨rs, s1⟩ := r0
  by_cases hrs : rs = H.PAM_SUCCESS <;> by_cases hd : apple = false ∧ delay > 0 <;>
    cases tty <;> cases rhost <;> cases authtok <;>
    simp only [hrs, hd, if_true, if_false, and_self]
  all_goals first | rfl | (split_ifs <;> simp)

theorem AuthObjCmd_withSetItemStatus {σ : Type} (H : PamHeader) (apple : Bool)
    (L : PamLibrary σ) (f g : σ → Int → String → Int) (a : AuthArgs) (s0 : σ) :
    (AuthObjCmd H apple (withSetItemStatus L f) (some a) s0).result
      = (AuthObjCmd H apple (withSetItemStatus L g) (some a) s0).result ∧
    (AuthObjCmd H apple (withSetItemStatus L f) (some a) s0).st
      = (AuthObjCmd H apple (withSetItemStatus L g) (some a) s0).st := by
  exact ⟨rfl, rfl⟩

/-! ## AuthObjCmd: the claims

Every statement below is about the run of `AuthObjCmd` against a library
wrapped in `recorder`, started with an empty list: `.st.2` of the outcome is the
list of calls the library received during the run. -/

/-- C3. For every run of `auth` whose arguments parse, against any library:
the interpreter result is `1` or `0`; it is `1` exactly when the library
received a `pam_authenticate` call and returned `PAM_SUCCESS` for it; the
recorder changes neither the result nor the final library state; the result
stays the same when `pam_acct_mgmt` is replaced by any other function; and with
the scripted library whose `pam_authenticate` succeeds and whose
`pam_acct_mgmt` returns the failure status 7 it is `1`. -/
theorem result_is_authenticate_success {σ : Type} (H : PamHeader) (apple : Bool)
    (L : PamLibrary σ) (a : AuthArgs) (s0 : σ) :
    ((AuthObjCmd H apple (recorder L) (some a) (s0, [])).result = some 1 ∨
      (AuthObjCmd H apple (recorder L) (some a) (s0, [])).result = some 0) ∧
    ((AuthObjCmd H apple (recorder L) (some a) (s0, [])).result = some 1 ↔
      statusOf PamCall.isAuthenticate (AuthObjCmd H apple (recorder L) (some a) (s0, [])).st.2
        = some H.PAM_SUCCESS) ∧
    ((AuthObjCmd H apple L (some a) s0).result
        = (AuthObjCmd H apple (recorder L) (some a) (s0, [])).result ∧
      (AuthObjCmd H apple L (some a) s0).st
        = (AuthObjCmd H apple (recorder L) (some a) (s0, [])).st.1) ∧
    (∀ g : σ → Int → Int × σ,
      (AuthObjCmd H apple { L with pam_acct_mgmt := g } (some a) s0).result
        = (AuthObjCmd H apple L (some a) s0).result) ∧
    (AuthObjCmd linuxPam false (recorder (fakePam linuxPam { okScript with acct := 7 })) (some aliceArgs) (none, [])).st.2
      = [PamCall.pam_start "login" "alice" 0, PamCall.pam_authenticate 0 0,
         PamCall.pam_acct_mgmt 0 7, PamCall.pam_end 0 0] ∧
    (AuthObjCmd linuxPam false (recorder (fakePam linuxPam { okScript with acct := 7 })) (some aliceArgs) (none, [])).result = some 1 := by
  refine ⟨?_, ?_, ?_, fun g => rfl, by decide, by decide⟩
  · obtain ⟨ρ, -, hr, -⟩ := AuthObjCmd_cases H apple L a s0
    rw [hr]
    by_cases h : ρ.start = H.PAM_SUCCESS ∧ ρ.authenticate = H.PAM_SUCCESS
    · exact Or.inl (by rw [if_pos h])
    · exact Or.inr (by rw [if_neg h])
  · obtain ⟨ρ, ht, hr, -⟩ := AuthObjCmd_cases H apple L a s0
    rw [ht, hr]
    rcases a with ⟨service, user, password, tty, rhost, authtok, delay⟩
    cases tty <;> cases rhost <;> cases authtok <;>
      by_cases hd : apple = false ∧ delay > 0 <;>
      by_cases hrs : ρ.start = H.PAM_SUCCESS <;>
      by_cases hra : ρ.authenticate = H.PAM_SUCCESS <;>
      simp [callsOf, itemCall, statusOf, hd, hrs, hra, PamCall.isAuthenticate, PamCall.ret]
  · exact ⟨(recorder_transparent H apple L a s0 []).1.symm,
      (recorder_transparent H apple L a s0 []).2.symm⟩

/-- C4. For every run of `auth` whose arguments parse, against any library and
whatever it returns (so in each of: authentication succeeds, authentication
fails, `pam_start` fails, the conversation fails during `pam_authenticate`):
the library receives exactly one `pam_start` call, which is the first call it
receives, and exactly one `pam_end` call, which is the last. The run against
the scripted library that prompts with an unknown style shows the
conversation failure case. -/
theorem end_called_once_and_last {σ : Type} (H : PamHeader) (apple : Bool)
    (L : PamLibrary σ) (a : AuthArgs) (s0 : σ) :
    ((AuthObjCmd H apple (recorder L) (some a) (s0, [])).st.2.filter PamCall.isStart).length = 1 ∧
    (∃ r, (AuthObjCmd H apple (recorder L) (some a) (s0, [])).st.2.head?
        = some (PamCall.pam_start a.service a.user r)) ∧
    ((AuthObjCmd H apple (recorder L) (some a) (s0, [])).st.2.filter PamCall.isEnd).length = 1 ∧
    (∃ st r, (AuthObjCmd H apple (recorder L) (some a) (s0, [])).st.2.getLast?
        = some (PamCall.pam_end st r)) ∧
    (AuthObjCmd linuxPam false (recorder (fakePam linuxPam { okScript with batches := [[⟨2, "login:"⟩, ⟨9, "?"⟩]] })) (some aliceArgs) (none, [])).st.2
      = [PamCall.pam_start "login" "alice" 0, PamCall.pam_authenticate 0 19,
         PamCall.pam_end 19 0] := by
  obtain ⟨ρ, ht, -, -⟩ := AuthObjCmd_cases H apple L a s0
  rw [ht]
  refine ⟨?_, ?_, ?_, ?_, by decide⟩
  all_goals
    rcases a with ⟨service, user, password, tty, rhost, authtok, delay⟩
    cases tty <;> cases rhost <;> cases authtok <;>
      by_cases hd : apple = false ∧ delay > 0 <;>
      by_cases hrs : ρ.start = H.PAM_SUCCESS <;>
      by_cases hra : ρ.authenticate = H.PAM_SUCCESS <;>
      simp [callsOf, itemCall, hd, hrs, hra, PamCall.isStart, PamCall.isEnd, List.getLast?]

/-- C5, the run that contradicts it. With `-delay 5`, `__APPLE__` not defined
and a library whose `pam_start` fails with status 7, the library still
receives a `pam_fail_delay` call between `pam_start` and `pam_end`; the result
is `0`. -/
theorem start_failure_still_arms_fail_delay :
    (AuthObjCmd linuxPam false (recorder (fakePam linuxPam { okScript with start := 7 })) (some { aliceArgs with delay := 5 }) (none, [])).st.2
      = [PamCall.pam_start "login" "alice" 7, PamCall.pam_fail_delay 5 0,
         PamCall.pam_end 7 0] ∧
    (AuthObjCmd linuxPam false (recorder (fakePam linuxPam { okScript with start := 7 })) (some { aliceArgs with delay := 5 }) (none, [])).result = some 0 := by
  exact ⟨by decide, by decide⟩

/-- C6. Where `pam_fail_delay` is compiled in (`__APPLE__` not defined) and
`pam_start` succeeds: with `delay = 0` the library receives no
`pam_fail_delay` call; with `delay > 0` it receives exactly one, with `delay`
as argument, as its second call right after `pam_start`, and it receives no
`pam_fail_delay` call after a `pam_set_item` or `pam_authenticate` call. -/
theorem fail_delay_armed_once_after_start {σ : Type} (H : PamHeader) (L : PamLibrary σ)
    (a : AuthArgs) (s0 : σ)
    (hstart : statusOf PamCall.isStart (AuthObjCmd H false (recorder L) (some a) (s0, [])).st.2
      = some H.PAM_SUCCESS) :
    (a.delay = 0 →
      (AuthObjCmd H false (recorder L) (some a) (s0, [])).st.2.filter PamCall.isFailDelay = []) ∧
    (0 < a.delay →
      (∃ r, (AuthObjCmd H false (recorder L) (some a) (s0, [])).st.2.filter PamCall.isFailDelay
          = [PamCall.pam_fail_delay a.delay r]) ∧
      (∃ r, (AuthObjCmd H false (recorder L) (some a) (s0, [])).st.2[0]?
          = some (PamCall.pam_start a.service a.user r)) ∧
      (∃ r, (AuthObjCmd H false (recorder L) (some a) (s0, [])).st.2[1]?
          = some (PamCall.pam_fail_delay a.delay r)) ∧
      (AuthObjCmd H false (recorder L) (some a) (s0, [])).st.2.Pairwise
        (fun c d => c.isSetItem = true ∨ c.isAuthenticate = true → d.isFailDelay = false)) := by
  obtain ⟨ρ, ht, -, -⟩ := AuthObjCmd_cases H false L a s0
  rw [ht] at hstart ⊢
  rw [statusOf_isStart_callsOf, Option.some.injEq] at hstart
  rcases a with ⟨service, user, password, tty, rhost, authtok, delay⟩
  refine ⟨fun h0 => ?_, fun hpos => ?_⟩
  · simp only at h0
    subst h0
    cases tty <;> cases rhost <;> cases authtok <;>
      by_cases hra : ρ.authenticate = H.PAM_SUCCESS <;>
      simp [callsOf, itemCall, hstart, hra, PamCall.isFailDelay]
  · simp only at hpos
    cases tty <;> cases rhost <;> cases authtok <;>
      by_cases hra : ρ.authenticate = H.PAM_SUCCESS <;>
      simp [callsOf, itemCall, hstart, hra, hpos, PamCall.isFailDelay, PamCall.isSetItem,
        PamCall.isAuthenticate]

/-- Witness for C6: the scripted library with `-delay 5` and three items, and
with no `-delay` option. -/
theorem fail_delay_armed_once_after_start_witness :
    (AuthObjCmd linuxPam false (recorder (fakePam linuxPam okScript)) (some fullArgs) (none, [])).st.2
      = [PamCall.pam_start "login" "alice" 0, PamCall.pam_fail_delay 5 0,
         PamCall.pam_set_item 4 "10.0.0.5" 0, PamCall.pam_set_item 6 "tok" 0,
         PamCall.pam_set_item 3 "pts/3" 0, PamCall.pam_authenticate 0 0,
         PamCall.pam_acct_mgmt 0 0, PamCall.pam_end 0 0] ∧
    (∃ r, (AuthObjCmd linuxPam false (recorder (fakePam linuxPam okScript)) (some fullArgs) (none, [])).st.2[1]?
        = some (PamCall.pam_fail_delay 5 r)) ∧
    (AuthObjCmd linuxPam false (recorder (fakePam linuxPam okScript)) (some rhostArgs) (none, [])).st.2.filter PamCall.isFailDelay = [] :=
  ⟨by decide,
   ((fail_delay_armed_once_after_start linuxPam (fakePam linuxPam okScript) fullArgs none
      (by decide)).2 (by decide)).2.2.1,
   (fail_delay_armed_once_after_start linuxPam (fakePam linuxPam okScript) rhostArgs none
      (by decide)).1 (by decide)⟩

/-- C7. For every run in which `pam_start` succeeds: the library receives
exactly one `pam_authenticate` call. When it returns `PAM_SUCCESS` for it, the
library receives exactly one `pam_acct_mgmt` call and no `pam_authenticate`
call after that. When it returns any other status, the library receives no
`pam_acct_mgmt` call, the result is `0` and the library receives exactly one
`pam_end` call. -/
theorem acct_mgmt_only_after_successful_authenticate {σ : Type} (H : PamHeader)
    (apple : Bool) (L : PamLibrary σ) (a : AuthArgs) (s0 : σ)
    (hstart : statusOf PamCall.isStart (AuthObjCmd H apple (recorder L) (some a) (s0, [])).st.2
      = some H.PAM_SUCCESS) :
    (∃ r, (AuthObjCmd H apple (recorder L) (some a) (s0, [])).st.2.filter PamCall.isAuthenticate
        = [PamCall.pam_authenticate 0 r]) ∧
    (statusOf PamCall.isAuthenticate (AuthObjCmd H apple (recorder L) (some a) (s0, [])).st.2
        = some H.PAM_SUCCESS →
      (∃ r, (AuthObjCmd H apple (recorder L) (some a) (s0, [])).st.2.filter PamCall.isAcctMgmt
          = [PamCall.pam_acct_mgmt 0 r]) ∧
      (AuthObjCmd H apple (recorder L) (some a) (s0, [])).st.2.Pairwise
        (fun c d => c.isAcctMgmt = true → d.isAuthenticate = false)) ∧
    (∀ r, statusOf PamCall.isAuthenticate (AuthObjCmd H apple (recorder L) (some a) (s0, [])).st.2 = some r →
      r ≠ H.PAM_SUCCESS →
      (AuthObjCmd H apple (recorder L) (some a) (s0, [])).st.2.filter PamCall.isAcctMgmt = [] ∧
      (AuthObjCmd H apple (recorder L) (some a) (s0, [])).result = some 0 ∧
      ((AuthObjCmd H apple (recorder L) (some a) (s0, [])).st.2.filter PamCall.isEnd).length = 1) := by
  obtain ⟨ρ, ht, hr, -⟩ := AuthObjCmd_cases H apple L a s0
  rw [ht] at hstart ⊢
  rw [hr]
  rw [statusOf_isStart_callsOf, Option.some.injEq] at hstart
  rcases a with ⟨service, user, password, tty, rhost, authtok, delay⟩
  refine ⟨?_, ?_, ?_⟩
  · cases tty <;> cases rhost <;> cases authtok <;>
      by_cases hd : apple = false ∧ delay > 0 <;>
      by_cases hra : ρ.authenticate = H.PAM_SUCCESS <;>
      simp [callsOf, itemCall, hd, hstart, hra, PamCall.isAuthenticate]
  · intro hauth
    have hra : ρ.authenticate = H.PAM_SUCCESS := by
      revert hauth
      cases tty <;> cases rhost <;> cases authtok <;>
        by_cases hd : apple = false ∧ delay > 0 <;>
        simp [callsOf, itemCall, statusOf, hd, hstart, PamCall.isAuthenticate, PamCall.ret]
    cases tty <;> cases rhost <;> cases authtok <;>
      by_cases hd : apple = false ∧ delay > 0 <;>
      simp [callsOf, itemCall, hd, hstart, hra, PamCall.isAuthenticate, PamCall.isAcctMgmt]
  · intro r hauth hne
    have hra : ρ.authenticate = r := by
      revert hauth
      cases tty <;> cases rhost <;> cases authtok <;>
        by_cases hd : apple = false ∧ delay > 0 <;>
        simp [callsOf, itemCall, statusOf, hd, hstart, PamCall.isAuthenticate, PamCall.ret]
    subst hra
    cases tty <;> cases rhost <;> cases authtok <;>
      by_cases hd : apple = false ∧ delay > 0 <;>
      simp [callsOf, itemCall, hd, hstart, hne, PamCall.isEnd, PamCall.isAcctMgmt]

/-- Witness for C7: the scripted library rejecting the credentials with
status 7, and the one accepting them. -/
theorem acct_mgmt_only_after_successful_authenticate_witness :
    (AuthObjCmd linuxPam false (recorder (fakePam linuxPam { okScript with verdict := 7 })) (some fullArgs) (none, [])).st.2
      = [PamCall.pam_start "login" "alice" 0, PamCall.pam_fail_delay 5 0,
         PamCall.pam_set_item 4 "10.0.0.5" 0, PamCall.pam_set_item 6 "tok" 0,
         PamCall.pam_set_item 3 "pts/3" 0, PamCall.pam_authenticate 0 7,
         PamCall.pam_end 7 0] ∧
    ((AuthObjCmd linuxPam false (recorder (fakePam linuxPam { okScript with verdict := 7 })) (some fullArgs) (none, [])).st.2.filter PamCall.isAcctMgmt = [] ∧
      (AuthObjCmd linuxPam false (recorder (fakePam linuxPam { okScript with verdict := 7 })) (some fullArgs) (none, [])).result = some 0 ∧
      ((AuthObjCmd linuxPam false (recorder (fakePam linuxPam { okScript with verdict := 7 })) (some fullArgs) (none, [])).st.2.filter PamCall.isEnd).length = 1) ∧
    ∃ r, (AuthObjCmd linuxPam false (recorder (fakePam linuxPam okScript)) (some fullArgs) (none, [])).st.2.filter PamCall.isAcctMgmt = [PamCall.pam_acct_mgmt 0 r] :=
  ⟨by decide,
   (acct_mgmt_only_after_successful_authenticate linuxPam false
      (fakePam linuxPam { okScript with verdict := 7 }) fullArgs none (by decide)).2.2 7
      (by decide) (by decide),
   ((acct_mgmt_only_after_successful_authenticate linuxPam false
      (fakePam linuxPam okScript) fullArgs none (by decide)).2.1 (by decide)).1⟩

/-- C8. For every run in which `pam_start` succeeds: for each of `-rhost`,
`-authtok`, `-tty` that is given the library receives exactly one
`pam_set_item` call of its item type (`PAM_RHOST`, `PAM_AUTHTOK`, `PAM_TTY`),
carrying the given value; for one that is not given it receives none; it
receives no other `pam_set_item` call; it receives no `pam_set_item` call after
`pam_authenticate`; and with `-rhost` alone the `pam_set_item` calls it
receives are exactly one, of `PAM_RHOST` with the given value. -/
theorem set_item_once_per_present_attribute {σ : Type} (H : PamHeader) (apple : Bool)
    (L : PamLibrary σ) (a : AuthArgs) (s0 : σ)
    (hstart : statusOf PamCall.isStart (AuthObjCmd H apple (recorder L) (some a) (s0, [])).st.2
      = some H.PAM_SUCCESS) :
    (∃ r, (AuthObjCmd H apple (recorder L) (some a) (s0, [])).st.2.filter (PamCall.isSetItemOf H.PAM_RHOST)
        = itemCall H.PAM_RHOST a.rhost r) ∧
    (∃ r, (AuthObjCmd H apple (recorder L) (some a) (s0, [])).st.2.filter (PamCall.isSetItemOf H.PAM_AUTHTOK)
        = itemCall H.PAM_AUTHTOK a.authtok r) ∧
    (∃ r, (AuthObjCmd H apple (recorder L) (some a) (s0, [])).st.2.filter (PamCall.isSetItemOf H.PAM_TTY)
        = itemCall H.PAM_TTY a.tty r) ∧
    (∀ c ∈ (AuthObjCmd H apple (recorder L) (some a) (s0, [])).st.2, c.isSetItem = true →
      c.isSetItemOf H.PAM_RHOST = true ∨ c.isSetItemOf H.PAM_AUTHTOK = true ∨
        c.isSetItemOf H.PAM_TTY = true) ∧
    (AuthObjCmd H apple (recorder L) (some a) (s0, [])).st.2.Pairwise
      (fun c d => c.isAuthenticate = true → d.isSetItem = false) ∧
    (∀ v, a.rhost = some v → a.authtok = none → a.tty = none →
      ∃ r, (AuthObjCmd H apple (recorder L) (some a) (s0, [])).st.2.filter PamCall.isSetItem
        = [PamCall.pam_set_item H.PAM_RHOST v r]) := by
  obtain ⟨ρ, ht, -, -⟩ := AuthObjCmd_cases H apple L a s0
  rw [ht] at hstart ⊢
  rw [statusOf_isStart_callsOf, Option.some.injEq] at hstart
  have hd := H.items_distinct
  simp only [List.nodup_cons, List.mem_cons, List.mem_singleton, not_or, List.not_mem_nil,
    not_false_eq_true, and_true, or_false, List.nodup_nil] at hd
  obtain ⟨⟨hra, hrt⟩, hat⟩ := hd
  have har : ¬ H.PAM_AUTHTOK = H.PAM_RHOST := fun e => hra e.symm
  have htr : ¬ H.PAM_TTY = H.PAM_RHOST := fun e => hrt e.symm
  have hta : ¬ H.PAM_TTY = H.PAM_AUTHTOK := fun e => hat e.symm
  rcases a with ⟨service, user, password, tty, rhost, authtok, delay⟩
  simp only [callsOf, hstart, if_true]
  have hfd : ∀ (p : PamCall → Bool) (r : Int), p (PamCall.pam_fail_delay delay r) = false →
      List.filter p (if apple = false ∧ delay > 0 then [PamCall.pam_fail_delay delay r] else [])
        = [] := by
    intro p r hp
    split_ifs <;> simp [hp]
  have hac : ∀ (p : PamCall → Bool) (r : Int), p (PamCall.pam_acct_mgmt 0 r) = false →
      List.filter p (if ρ.authenticate = H.PAM_SUCCESS then [PamCall.pam_acct_mgmt 0 r] else [])
        = [] := by
    intro p r hp
    split_ifs <;> simp [hp]
  refine ⟨?_, ?_, ?_, ?_, ?_, ?_⟩
  · refine ⟨ρ.rhost, ?_⟩
    simp only [List.filter_cons, List.filter_append, hfd, hac, PamCall.isSetItemOf]
    cases tty <;> cases rhost <;> cases authtok <;>
      simp [itemCall, har, htr, PamCall.isSetItemOf]
  · refine ⟨ρ.authtok, ?_⟩
    simp only [List.filter_cons, List.filter_append, hfd, hac, PamCall.isSetItemOf]
    cases tty <;> cases rhost <;> cases authtok <;>
      simp [itemCall, hra, hta, PamCall.isSetItemOf]
  · refine ⟨ρ.tty, ?_⟩
    simp only [List.filter_cons, List.filter_append, hfd, hac, PamCall.isSetItemOf]
    cases tty <;> cases rhost <;> cases authtok <;>
      simp [itemCall, hrt, hat, PamCall.isSetItemOf]
  · have key : ∀ c ∈ itemCall H.PAM_RHOST rhost ρ.rhost ++
        (itemCall H.PAM_AUTHTOK authtok ρ.authtok ++ itemCall H.PAM_TTY tty ρ.tty),
        c.isSetItemOf H.PAM_RHOST = true ∨ c.isSetItemOf H.PAM_AUTHTOK = true ∨
          c.isSetItemOf H.PAM_TTY = true := by
      cases tty <;> cases rhost <;> cases authtok <;>
        simp [itemCall, PamCall.isSetItemOf]
    intro c hc hs
    have hmem : c ∈ itemCall H.PAM_RHOST rhost ρ.rhost ++
        (itemCall H.PAM_AUTHTOK authtok ρ.authtok ++ itemCall H.PAM_TTY tty ρ.tty) := by
      simp only [List.mem_cons, List.mem_append] at hc ⊢
      rcases hc with rfl | hc | hc | hc | hc | rfl | hc | hc
      · simp [PamCall.isSetItem] at hs
      · split_ifs at hc
        · simp only [List.mem_singleton] at hc
          subst hc
          simp [PamCall.isSetItem] at hs
        · simp at hc
      · exact Or.inl hc
      · exact Or.inr (Or.inl hc)
      · exact Or.inr (Or.inr hc)
      · simp [PamCall.isSetItem] at hs
      · split_ifs at hc
        · simp only [List.mem_singleton] at hc
          subst hc
          simp [PamCall.isSetItem] at hs
        · simp at hc
      · simp only [List.not_mem_nil, or_false] at hc
        subst hc
        simp [PamCall.isSetItem] at hs
    exact key c hmem
  · cases tty <;> cases rhost <;> cases authtok <;>
      by_cases hd : apple = false ∧ delay > 0 <;>
      by_cases hauth : ρ.authenticate = H.PAM_SUCCESS <;>
      simp [itemCall, hd, hauth, PamCall.isSetItem, PamCall.isAuthenticate]
  · intro v h1 h2 h3
    subst h1 h2 h3
    refine ⟨ρ.rhost, ?_⟩
    simp only [List.filter_cons, List.filter_append, hfd, hac, PamCall.isSetItem]
    simp [itemCall, PamCall.isSetItem]

/-- Witness for C8: `-rhost 10.0.0.5` alone against the scripted library. -/
theorem set_item_once_per_present_attribute_witness :
    (AuthObjCmd linuxPam false (recorder (fakePam linuxPam okScript)) (some rhostArgs) (none, [])).st.2
      = [PamCall.pam_start "login" "alice" 0, PamCall.pam_set_item 4 "10.0.0.5" 0,
         PamCall.pam_authenticate 0 0, PamCall.pam_acct_mgmt 0 0, PamCall.pam_end 0 0] ∧
    ∃ r, (AuthObjCmd linuxPam false (recorder (fakePam linuxPam okScript)) (some rhostArgs) (none, [])).st.2.filter PamCall.isSetItem
      = [PamCall.pam_set_item linuxPam.PAM_RHOST "10.0.0.5" r] :=
  ⟨by decide,
   (set_item_once_per_present_attribute linuxPam false (fakePam linuxPam okScript) rhostArgs
      none (by decide)).2.2.2.2.2 "10.0.0.5" rfl rfl rfl⟩

/-- C9. For every run in which `pam_start` succeeds and every choice `f` of the
statuses `pam_set_item` returns: for every item that is given the library still
receives the `pam_set_item` call, returning the status `f` chose for it; the
library still receives a `pam_authenticate` call; the result and the final
state of the library are those of the run in which every `pam_set_item`
returns `PAM_SUCCESS`; and the result is `1` exactly when `pam_authenticate`
returned `PAM_SUCCESS`. -/
theorem set_item_status_ignored {σ : Type} (H : PamHeader) (apple : Bool)
    (L : PamLibrary σ) (f : σ → Int → String → Int) (a : AuthArgs) (s0 : σ)
    (hstart : statusOf PamCall.isStart (AuthObjCmd H apple (recorder (withSetItemStatus L f)) (some a) (s0, [])).st.2
      = some H.PAM_SUCCESS) :
    (∀ v, a.rhost = some v → ∃ s, PamCall.pam_set_item H.PAM_RHOST v (f s H.PAM_RHOST v) ∈
        (AuthObjCmd H apple (recorder (withSetItemStatus L f)) (some a) (s0, [])).st.2) ∧
    (∀ v, a.authtok = some v →
      ∃ s, PamCall.pam_set_item H.PAM_AUTHTOK v (f s H.PAM_AUTHTOK v) ∈
        (AuthObjCmd H apple (recorder (withSetItemStatus L f)) (some a) (s0, [])).st.2) ∧
    (∀ v, a.tty = some v → ∃ s, PamCall.pam_set_item H.PAM_TTY v (f s H.PAM_TTY v) ∈
        (AuthObjCmd H apple (recorder (withSetItemStatus L f)) (some a) (s0, [])).st.2) ∧
    (∃ r, PamCall.pam_authenticate 0 r ∈
        (AuthObjCmd H apple (recorder (withSetItemStatus L f)) (some a) (s0, [])).st.2) ∧
    (AuthObjCmd H apple (recorder (withSetItemStatus L f)) (some a) (s0, [])).result
      = (AuthObjCmd H apple (recorder (withSetItemStatus L (fun _ _ _ => H.PAM_SUCCESS)))
          (some a) (s0, [])).result ∧
    (AuthObjCmd H apple (recorder (withSetItemStatus L f)) (some a) (s0, [])).st.1
      = (AuthObjCmd H apple (recorder (withSetItemStatus L (fun _ _ _ => H.PAM_SUCCESS)))
          (some a) (s0, [])).st.1 ∧
    ((AuthObjCmd H apple (recorder (withSetItemStatus L f)) (some a) (s0, [])).result = some 1 ↔
      statusOf PamCall.isAuthenticate (AuthObjCmd H apple (recorder (withSetItemStatus L f)) (some a) (s0, [])).st.2
        = some H.PAM_SUCCESS) := by
  obtain ⟨ρ, ht, hr, hp⟩ := AuthObjCmd_cases H apple (withSetItemStatus L f) a s0
  rw [ht] at hstart
  rw [statusOf_isStart_callsOf, Option.some.injEq] at hstart
  obtain ⟨hp1, hp2, hp3⟩ := hp hstart
  have hres := AuthObjCmd_withSetItemStatus H apple L f (fun _ _ _ => H.PAM_SUCCESS) a s0
  have htf := recorder_transparent H apple (withSetItemStatus L f) a s0 []
  have hts := recorder_transparent H apple
    (withSetItemStatus L (fun _ _ _ => H.PAM_SUCCESS)) a s0 []
  refine ⟨?_, ?_, ?_, ?_, ?_, ?_, ?_⟩
  · intro v hv
    obtain ⟨s, hs⟩ := hp1 v hv
    refine ⟨s, ?_⟩
    have hs2 : ρ.rhost = f s H.PAM_RHOST v := hs
    rw [ht, ← hs2]
    simp [callsOf, itemCall, hstart, hv]
  · intro v hv
    obtain ⟨s, hs⟩ := hp2 v hv
    refine ⟨s, ?_⟩
    have hs2 : ρ.authtok = f s H.PAM_AUTHTOK v := hs
    rw [ht, ← hs2]
    simp [callsOf, itemCall, hstart, hv]
  · intro v hv
    obtain ⟨s, hs⟩ := hp3 v hv
    refine ⟨s, ?_⟩
    have hs2 : ρ.tty = f s H.PAM_TTY v := hs
    rw [ht, ← hs2]
    simp [callsOf, itemCall, hstart, hv]
  · exact ⟨ρ.authenticate, by rw [ht]; simp [callsOf, hstart]⟩
  · rw [htf.1, hts.1]
    exact hres.1
  · rw [htf.2, hts.2]
    exact hres.2
  · rw [ht, hr]
    rcases a with ⟨service, user, password, tty, rhost, authtok, delay⟩
    cases tty <;> cases rhost <;> cases authtok <;>
      by_cases hd : apple = false ∧ delay > 0 <;>
      by_cases hra : ρ.authenticate = H.PAM_SUCCESS <;>
      simp [callsOf, itemCall, statusOf, hd, hstart, hra, PamCall.isAuthenticate, PamCall.ret]

/-- Witness for C9: every `pam_set_item` of the scripted library fails with
status 7; the library still receives the three items, `pam_authenticate` and
`pam_acct_mgmt`, and the result is that of the all-success run. -/
theorem set_item_status_ignored_witness :
    (AuthObjCmd linuxPam false (recorder (withSetItemStatus (fakePam linuxPam okScript) (fun _ _ _ => 7))) (some fullArgs) (none, [])).st.2
      = [PamCall.pam_start "login" "alice" 0, PamCall.pam_fail_delay 5 0,
         PamCall.pam_set_item 4 "10.0.0.5" 7, PamCall.pam_set_item 6 "tok" 7,
         PamCall.pam_set_item 3 "pts/3" 7, PamCall.pam_authenticate 0 0,
         PamCall.pam_acct_mgmt 0 0, PamCall.pam_end 0 0] ∧
    (AuthObjCmd linuxPam false (recorder (withSetItemStatus (fakePam linuxPam okScript) (fun _ _ _ => 7))) (some fullArgs) (none, [])).result
      = (AuthObjCmd linuxPam false
          (recorder (withSetItemStatus (fakePam linuxPam okScript)
            (fun _ _ _ => linuxPam.PAM_SUCCESS)))
          (some fullArgs) (none, [])).result :=
  ⟨by decide,
   (set_item_status_ignored linuxPam false (fakePam linuxPam okScript) (fun _ _ _ => 7)
      fullArgs none (by decide)).2.2.2.2.1⟩

/-- C10, the run that contradicts it. `pam_authenticate` succeeds and
`pam_acct_mgmt`, the last call the library receives before `pam_end`, returns
the failure status 7: `pam_end` is handed `PAM_SUCCESS`, not 7. -/
theorem end_status_ignores_acct_mgmt_status :
    ¬ (statusOf PamCall.isAuthenticate (AuthObjCmd linuxPam false
            (recorder (fakePam linuxPam { okScript with acct := 7 })) (some aliceArgs)
            (none, [])).st.2
          = some linuxPam.PAM_SUCCESS →
        endStatus (AuthObjCmd linuxPam false
            (recorder (fakePam linuxPam { okScript with acct := 7 })) (some aliceArgs)
            (none, [])).st.2
          = statusOf PamCall.isAcctMgmt (AuthObjCmd linuxPam false
            (recorder (fakePam linuxPam { okScript with acct := 7 })) (some aliceArgs)
            (none, [])).st.2) := by
  decide

/-- C10 as amended. The status handed to `pam_end` is the final value of `rc`:
the status the library returned for `pam_start` when `pam_start` fails, and
the status it returned for `pam_authenticate` when `pam_start` succeeds; so
whenever the library receives a `pam_acct_mgmt` call, `pam_end` is handed
`PAM_SUCCESS`, whatever `pam_acct_mgmt` returned. -/
theorem end_status_is_last_assigned_rc {σ : Type} (H : PamHeader) (apple : Bool)
    (L : PamLibrary σ) (a : AuthArgs) (s0 : σ) :
    (∃ st r, (AuthObjCmd H apple (recorder L) (some a) (s0, [])).st.2.filter PamCall.isEnd = [PamCall.pam_end st r] ∧
      endStatus (AuthObjCmd H apple (recorder L) (some a) (s0, [])).st.2 = some st) ∧
    (∀ r, statusOf PamCall.isStart (AuthObjCmd H apple (recorder L) (some a) (s0, [])).st.2 = some r →
      r ≠ H.PAM_SUCCESS →
      endStatus (AuthObjCmd H apple (recorder L) (some a) (s0, [])).st.2 = some r) ∧
    (statusOf PamCall.isStart (AuthObjCmd H apple (recorder L) (some a) (s0, [])).st.2 = some H.PAM_SUCCESS →
      (∃ r, statusOf PamCall.isAuthenticate (AuthObjCmd H apple (recorder L) (some a) (s0, [])).st.2
          = some r) ∧
      endStatus (AuthObjCmd H apple (recorder L) (some a) (s0, [])).st.2
        = statusOf PamCall.isAuthenticate (AuthObjCmd H apple (recorder L) (some a) (s0, [])).st.2) ∧
    (∀ r, statusOf PamCall.isAcctMgmt (AuthObjCmd H apple (recorder L) (some a) (s0, [])).st.2 = some r →
      endStatus (AuthObjCmd H apple (recorder L) (some a) (s0, [])).st.2 = some H.PAM_SUCCESS) := by
  obtain ⟨ρ, ht, -, -⟩ := AuthObjCmd_cases H apple L a s0
  rw [ht, statusOf_isStart_callsOf]
  rcases a with ⟨service, user, password, tty, rhost, authtok, delay⟩
  refine ⟨?_, ?_, ?_, ?_⟩
  · cases tty <;> cases rhost <;> cases authtok <;>
      by_cases hd : apple = false ∧ delay > 0 <;>
      by_cases hrs : ρ.start = H.PAM_SUCCESS <;>
      by_cases hra : ρ.authenticate = H.PAM_SUCCESS <;>
      simp [callsOf, itemCall, endStatus, hd, hrs, hra, PamCall.isEnd]
  · intro r hr hne
    rw [Option.some.injEq] at hr
    subst hr
    by_cases hd : apple = false ∧ delay > 0 <;>
      simp [callsOf, endStatus, hd, hne]
  · intro hrs
    rw [Option.some.injEq] at hrs
    cases tty <;> cases rhost <;> cases authtok <;>
      by_cases hd : apple = false ∧ delay > 0 <;>
      by_cases hra : ρ.authenticate = H.PAM_SUCCESS <;>
      simp [callsOf, itemCall, endStatus, statusOf, hd, hrs, hra, PamCall.isAuthenticate,
        PamCall.ret]
  · intro r
    cases tty <;> cases rhost <;> cases authtok <;>
      by_cases hd : apple = false ∧ delay > 0 <;>
      by_cases hrs : ρ.start = H.PAM_SUCCESS <;>
      by_cases hra : ρ.authenticate = H.PAM_SUCCESS <;>
      simp [callsOf, itemCall, endStatus, statusOf, hd, hrs, hra, PamCall.isAcctMgmt,
        PamCall.ret]

end NsAuthPam
